import Mathlib

/-!
Shallow embedding of the crawl-to-Elasticsearch script (src/node.js) and
proofs about its specified behaviour.

The embedding keeps the structure of the source:
  - `generateCleanerWithGoogleAI` (src lines 21-48): emptiness check on the
    raw service response, markdown-fence stripping, trim, removal of a
    leading language token;
  - `buildCrawler` (src lines 53-127): homepage fetch, code generation,
    compilation of the generated source into a callable, crawler creation;
  - `requestHandler` (src lines 88-123): extraction, title read, document
    construction, guarded index write, link enqueueing;
  - `run` (src lines 130-141): catches every startup error and logs it.
External collaborators (the JS engine evaluation, HTTP fetch, the code
generation service, the index client) are parameters of the model; the
crawl scheduler and frontier, implemented by the external crawlee library,
are modelled from the spec where a claim needs them.
-/

namespace CrawlSpec

/-! ### Character and string utilities mirroring the JS operations -/

/-- The backtick character, written by code point to keep source plain. -/
def backtick : Char := Char.ofNat 96

/-- Whitespace as matched by the trim and token-stripping steps
(modelled as the ASCII whitespace characters). -/
def isWs (c : Char) : Bool := c = ' ' || c = '\t' || c = '\n' || c = '\r'

/-- JS String.prototype.trim on a character list: drop whitespace from the
front and from the back. -/
def jsTrim (l : List Char) : List Char :=
  ((l.dropWhile isWs).reverse.dropWhile isWs).reverse

/-- Boolean prefix test on character lists. -/
def beginsWith : List Char → List Char → Bool
  | [], _ => true
  | _ :: _, [] => false
  | p :: ps, c :: cs => p = c && beginsWith ps cs

/-- code.replace with a global triple-backtick pattern and an empty
replacement (src line 38): scan left to right, removing each
non-overlapping occurrence of three consecutive backticks. -/
def stripFences : List Char → List Char
  | [] => []
  | [c] => [c]
  | [c1, c2] => [c1, c2]
  | c1 :: c2 :: c3 :: rest =>
    if c1 = backtick ∧ c2 = backtick ∧ c3 = backtick then stripFences rest
    else c1 :: stripFences (c2 :: c3 :: rest)

/-- The language-name token removed by src lines 42-44. -/
def jsToken : List Char := ['j', 'a', 'v', 'a', 's', 'c', 'r', 'i', 'p', 't']

/-- Sanitization of the generated source (src lines 38-44): strip all
triple-backtick fences, trim, then, when the lowercased result starts with
the token javascript, drop that token and the whitespace after it. -/
def sanitizeChars (l : List Char) : List Char :=
  if beginsWith jsToken ((jsTrim (stripFences l)).map Char.toLower) then
    ((jsTrim (stripFences l)).drop jsToken.length).dropWhile isWs
  else jsTrim (stripFences l)

/-- String-level sanitization, the composition performed by
generateCleanerWithGoogleAI before returning the source. -/
def sanitize (s : String) : String := String.mk (sanitizeChars s.data)

/-- The wrapper placed around the generated source before evaluation
(src line 74). -/
def wrapCode (src : String) : String :=
  "\"use strict\"; " ++ src ++ "; return getCleanText;"

/-! ### The code-generation step (src lines 21-48) -/

/-- Result of calling generateCleanerWithGoogleAI, given the raw text the
service returned: the emptiness check at src line 33 runs on the RAW
response, and only afterwards (src lines 38-44) is the source sanitized. -/
def generateCleaner (llmResponse : String) : Except String String :=
  if llmResponse = "" then Except.error "No code was returned by the LLM."
  else Except.ok (sanitize llmResponse)

/-! ### Building the crawler (src lines 53-127) -/

/-- Outcome of evaluating the wrapped source in the JS engine
(new Function at src line 75 followed by the call at src line 76):
the evaluation produced a function value, produced a non-function value,
or threw with a message. -/
inductive JSOutcome where
  | function
  | notFunction
  | threw (msg : String)
deriving Repr, DecidableEq

/-- The compile-and-verify step, src lines 71-83: evaluate the wrapped
source; a thrown error or a non-function result is rethrown as the build
error with the prefix from src line 82. -/
def buildGetCleanText (jsEval : String → JSOutcome) (src : String) :
    Except String Unit :=
  match jsEval (wrapCode src) with
  | JSOutcome.function => Except.ok ()
  | JSOutcome.notFunction =>
      Except.error ("Error building function from LLM code: " ++
        "The code did not define a function named getCleanText.")
  | JSOutcome.threw m =>
      Except.error ("Error building function from LLM code: " ++ m)

/-- Response of the homepage fetch (src line 55). -/
structure HttpResponse where
  ok : Bool
  status : Nat
  body : String
deriving Repr, DecidableEq

/-- The external collaborators of buildCrawler: the homepage fetch, the
code-generation service response, and the JS evaluation primitive. -/
structure BuildEnv where
  fetchHomepage : Except String HttpResponse
  llmResponse : Except String String
  jsEval : String → JSOutcome

/-- buildCrawler (src lines 53-127) up to the creation of the crawler:
fetch the homepage (throwing on a non-ok status, src lines 56-60), obtain
the generated source (src line 67, via the raw-emptiness check and the
sanitization of generateCleaner), and compile it (src lines 71-83).
Success means the crawler object was constructed. -/
def buildCrawlerModel (env : BuildEnv) : Except String Unit :=
  match env.fetchHomepage with
  | Except.error e => Except.error e
  | Except.ok resp =>
    if resp.ok = false then
      Except.error ("Failed to fetch homepage. Status: " ++ toString resp.status)
    else
      match env.llmResponse with
      | Except.error e => Except.error e
      | Except.ok raw =>
        match generateCleaner raw with
        | Except.error e => Except.error e
        | Except.ok src => buildGetCleanText env.jsEval src

/-! ### The request handler (src lines 88-123) -/

/-- The document shape assembled at src lines 100-105; it has exactly the
four fields of the documentData object literal. -/
structure Document where
  title : String
  content : String
  url : String
  crawledAt : String
deriving Repr, DecidableEq

/-- A crawl request as seen by the handler: the URL as enqueued
(request.url, src line 98) and the URL actually loaded after any redirects
(request.loadedUrl, src line 121). -/
structure CrawlRequest where
  url : String
  loadedUrl : String
deriving Repr, DecidableEq

/-- Outcomes of the external calls made while one request is processed:
the generated getCleanText call (src line 96), the title read
(src line 97), the clock (src line 104) and the index write
(src lines 109-112). -/
structure HandlerEnv where
  extractResult : Except String String
  titleResult : String
  indexResult : Except String Unit
  now : String

/-- Observable events of one unit of work, in the order they happen. -/
inductive Event where
  | render (url : String)
  | extract
  | readTitle
  | indexWrite (doc : Document)
  | logIndexError (url : String)
  | enqueueLinksCall (baseUrl : String)
  | releasePage
deriving Repr, DecidableEq

/-- The requestHandler body (src lines 88-123): run getCleanText (an
uncaught throw aborts the handler right there), read the title, build the
document, attempt the index write inside try/catch (logging the error on
failure, src line 115), then enqueue links with request.loadedUrl as base
(src lines 119-122). Returns the handler outcome and the event trace. -/
def requestHandler (env : HandlerEnv) (req : CrawlRequest) :
    Except String Unit × List Event :=
  match env.extractResult with
  | Except.error e => (Except.error e, [Event.extract])
  | Except.ok pageText =>
    let doc : Document :=
      { title := env.titleResult, content := pageText,
        url := req.url, crawledAt := env.now }
    let writeEvents :=
      match env.indexResult with
      | Except.ok _ => [Event.indexWrite doc]
      | Except.error _ => [Event.indexWrite doc, Event.logIndexError req.url]
    (Except.ok (),
      Event.extract :: Event.readTitle :: writeEvents ++
        [Event.enqueueLinksCall req.loadedUrl])

/-- Modelled from the spec: the crawlee framework renders the page before
invoking the request handler and releases it afterwards (spec section 4.4,
steps a and f); the handler body between them is the src requestHandler. -/
def unitOfWork (env : HandlerEnv) (req : CrawlRequest) : List Event :=
  Event.render req.url :: (requestHandler env req).2 ++ [Event.releasePage]

/-! ### Frontier and scheduler

The frontier and the bounded-concurrency scheduler are implemented by the
external crawlee library, so they are modelled from the spec (sections
4.1, 4.4 and 5): enqueue normalizes the URL, consults the visited set and
queue atomically, and the scheduler never dispatches beyond the
concurrency cap. -/

/-- Modelled from the spec: URL normalization strips the fragment
(spec section 4.1); resolution against the origin is performed before the
frontier sees the URL, so enqueue receives an absolute URL. -/
def normalize (u : String) : String := String.mk (u.data.takeWhile (· ≠ '#'))

/-- Modelled from the spec: the frontier holds the visited set and the
pending queue; the log records every URL ever inserted into the queue, in
insertion order, so at-most-once enqueueing is expressible. -/
structure Frontier where
  visited : List String
  queue : List String
  log : List String
deriving Repr, DecidableEq

/-- Modelled from the spec: Frontier.enqueue normalizes the URL and
inserts it only if not already in the visited set (spec section 4.1); the
check and the insertion are one atomic step (spec section 5). -/
def Frontier.enqueue (f : Frontier) (url : String) : Frontier :=
  if normalize url ∈ f.visited then f
  else
    { visited := normalize url :: f.visited,
      queue := f.queue ++ [normalize url],
      log := f.log ++ [normalize url] }

/-- The frontier holding exactly the seed request, as produced by
crawler.run at src line 136. -/
def initFrontier (seed : String) : Frontier :=
  Frontier.enqueue { visited := [], queue := [], log := [] } seed

/-- The configured maximum concurrency, src line 87. -/
def maxConcurrency : Nat := 5

/-- Modelled from the spec: the scheduler state — the frontier plus the
requests currently in flight and those already processed. -/
structure SchedState where
  frontier : Frontier
  inFlight : List String
  processed : List String
deriving Repr, DecidableEq

/-- The scheduler state at the start of a run seeded with one URL. -/
def initSched (seed : String) : SchedState :=
  { frontier := initFrontier seed, inFlight := [], processed := [] }

/-- Modelled from the spec: one scheduler transition (spec sections 4.4
and 5). dispatch takes the queue head when capacity remains; discover is
one link found on an in-flight page being offered to the frontier
(interleaved arbitrarily across in-flight pages, modelling concurrent
discovery); finish retires an in-flight request. -/
inductive SchedStep (links : String → List String) :
    SchedState → SchedState → Prop where
  | dispatch (s : SchedState) (u : String) (rest : List String)
      (hq : s.frontier.queue = u :: rest)
      (hc : s.inFlight.length < maxConcurrency) :
      SchedStep links s
        { frontier := { s.frontier with queue := rest },
          inFlight := u :: s.inFlight, processed := s.processed }
  | discover (s : SchedState) (u l : String)
      (hu : u ∈ s.inFlight) (hl : l ∈ links u) :
      SchedStep links s
        { frontier := s.frontier.enqueue l,
          inFlight := s.inFlight, processed := s.processed }
  | finish (s : SchedState) (u : String) (hu : u ∈ s.inFlight) :
      SchedStep links s
        { frontier := s.frontier, inFlight := s.inFlight.erase u,
          processed := u :: s.processed }

/-- States reachable from the seeded initial state. -/
def Reaches (links : String → List String) (seed : String)
    (s : SchedState) : Prop :=
  Relation.ReflTransGen (SchedStep links) (initSched seed) s

/-! ### A deterministic sequential run

A fuel-bounded sequential drain of the frontier, recording which pages
were processed, indexed, or had their index write fail. The per-page
behaviour follows the src requestHandler: the write failure is logged and
the request still completes and enqueues its links. -/

/-- Sequential crawl state: the frontier plus the processing outcome
lists. -/
structure SeqState where
  frontier : Frontier
  processed : List String
  indexed : List String
  writeErrors : List String
deriving Repr, DecidableEq

/-- The sequential crawl state at the start of a run. -/
def initSeq (seed : String) : SeqState :=
  { frontier := initFrontier seed, processed := [], indexed := [],
    writeErrors := [] }

/-- One sequential step: pop the queue head, process it (the index write
outcome given by writeFails only affects the outcome lists, mirroring the
try/catch at src lines 108-116), then enqueue its links. -/
def seqStep (links : String → List String) (writeFails : String → Bool)
    (s : SeqState) : SeqState :=
  match s.frontier.queue with
  | [] => s
  | u :: rest =>
    let f1 : Frontier := { s.frontier with queue := rest }
    let f2 := (links u).foldl Frontier.enqueue f1
    { frontier := f2,
      processed := s.processed ++ [u],
      indexed := if writeFails u then s.indexed else s.indexed ++ [u],
      writeErrors :=
        if writeFails u then s.writeErrors ++ [u] else s.writeErrors }

/-- Run the sequential crawl for a bounded number of steps. -/
def seqRun (links : String → List String) (writeFails : String → Bool) :
    Nat → SeqState → SeqState
  | 0, s => s
  | n + 1, s => seqRun links writeFails n (seqStep links writeFails s)

/-! ### The top-level run (src lines 130-143) -/

/-- Observable events of the whole run. -/
inductive RunEvent where
  | crawlerRunStart
  | renderCall (url : String)
  | logError (msg : String)
  | logComplete
deriving Repr, DecidableEq

/-- run() (src lines 130-141): build the crawler; any thrown startup error
is caught and logged with the prefix of src line 139, after which run()
returns normally — the process exit code is 0 on every path, since no
process.exit call and no rethrow exists. On success the crawler is run on
the seed and each processed page is rendered. -/
def runModel (env : BuildEnv) (websiteUrl : String)
    (links : String → List String) (writeFails : String → Bool)
    (fuel : Nat) : List RunEvent × Nat :=
  match buildCrawlerModel env with
  | Except.error e => ([RunEvent.logError ("Error in run(): " ++ e)], 0)
  | Except.ok _ =>
    let final := seqRun links writeFails fuel (initSeq websiteUrl)
    (RunEvent.crawlerRunStart ::
      final.processed.map RunEvent.renderCall ++ [RunEvent.logComplete], 0)

/-! ### Lemmas about fence stripping -/

theorem stripFences_cons3 (c1 c2 c3 : Char) (rest : List Char) :
    stripFences (c1 :: c2 :: c3 :: rest) =
      if c1 = backtick ∧ c2 = backtick ∧ c3 = backtick then stripFences rest
      else c1 :: stripFences (c2 :: c3 :: rest) := rfl

theorem stripFences_head1 {l t : List Char}
    (h : stripFences l = backtick :: t) : ∃ u, l = backtick :: u := by
  rcases l with _ | ⟨c1, _ | ⟨c2, _ | ⟨c3, rest⟩⟩⟩
  · simp [stripFences] at h
  · rw [show stripFences [c1] = [c1] from rfl] at h
    injection h with h1 _
    exact ⟨[], by rw [h1]⟩
  · rw [show stripFences [c1, c2] = [c1, c2] from rfl] at h
    injection h with h1 _
    exact ⟨[c2], by rw [h1]⟩
  · rw [stripFences_cons3] at h
    split at h
    · rename_i hb
      exact ⟨c2 :: c3 :: rest, by rw [hb.1]⟩
    · injection h with h1 _
      exact ⟨c2 :: c3 :: rest, by rw [h1]⟩

theorem stripFences_head2 {l t : List Char}
    (h : stripFences l = backtick :: backtick :: t) :
    ∃ u, l = backtick :: backtick :: u := by
  rcases l with _ | ⟨c1, _ | ⟨c2, _ | ⟨c3, rest⟩⟩⟩
  · simp [stripFences] at h
  · rw [show stripFences [c1] = [c1] from rfl] at h
    simp at h
  · rw [show stripFences [c1, c2] = [c1, c2] from rfl] at h
    injection h with h1 h2
    injection h2 with h2 _
    exact ⟨[], by rw [h1, h2]⟩
  · rw [stripFences_cons3] at h
    split at h
    · rename_i hb
      exact ⟨c3 :: rest, by rw [hb.1, hb.2.1]⟩
    · injection h with h1 h2
      obtain ⟨u, hu⟩ := stripFences_head1 h2
      injection hu with h3 _
      exact ⟨c3 :: rest, by rw [h1, h3]⟩

theorem stripFences_noFence_aux :
    ∀ (n : Nat) (l : List Char), l.length ≤ n → ∀ a b : List Char,
      stripFences l ≠ a ++ backtick :: backtick :: backtick :: b := by
  intro n
  induction n with
  | zero =>
    intro l hl a b h
    have hnil : l = [] := List.eq_nil_of_length_eq_zero (Nat.le_zero.mp hl)
    subst hnil
    rw [show stripFences [] = [] from rfl] at h
    have := congrArg List.length h
    simp at this
    omega
  | succ n ih =>
    intro l hl a b h
    rcases l with _ | ⟨c1, _ | ⟨c2, _ | ⟨c3, rest⟩⟩⟩
    · rw [show stripFences [] = [] from rfl] at h
      have := congrArg List.length h
      simp at this
      omega
    · rw [show stripFences [c1] = [c1] from rfl] at h
      have := congrArg List.length h
      simp at this
      omega
    · rw [show stripFences [c1, c2] = [c1, c2] from rfl] at h
      have := congrArg List.length h
      simp at this
      omega
    · have hl3 : rest.length + 3 ≤ n + 1 := by
        simpa [Nat.add_assoc] using hl
      rw [stripFences_cons3] at h
      split at h
      · exact ih rest (by omega) a b h
      · rename_i hb
        cases a with
        | nil =>
          rw [List.nil_append] at h
          injection h with h1 h2
          obtain ⟨u, hu⟩ := stripFences_head2 h2
          injection hu with h3 hu2
          injection hu2 with h4 _
          exact hb ⟨h1, h3, h4⟩
        | cons a0 tl =>
          rw [List.cons_append] at h
          injection h with h1 h2
          exact ih (c2 :: c3 :: rest) (by simp; omega) tl b h2

theorem stripFences_noFence (l : List Char) (a b : List Char) :
    stripFences l ≠ a ++ backtick :: backtick :: backtick :: b :=
  stripFences_noFence_aux l.length l le_rfl a b

/-! ### The sanitizer output is a contiguous slice of the fence-free
stripped source, hence itself fence-free -/

theorem slice_trans {l m r : List Char} (h1 : ∃ p q, l = p ++ m ++ q)
    (h2 : ∃ p q, m = p ++ r ++ q) : ∃ p q, l = p ++ r ++ q := by
  obtain ⟨p1, q1, e1⟩ := h1
  obtain ⟨p2, q2, e2⟩ := h2
  refine ⟨p1 ++ p2, q2 ++ q1, ?_⟩
  rw [e1, e2]
  simp [List.append_assoc]

theorem jsTrim_slice (l : List Char) : ∃ p q, l = p ++ jsTrim l ++ q := by
  refine ⟨l.takeWhile isWs,
    ((l.dropWhile isWs).reverse.takeWhile isWs).reverse, ?_⟩
  have hm : l.dropWhile isWs =
      jsTrim l ++ ((l.dropWhile isWs).reverse.takeWhile isWs).reverse := by
    unfold jsTrim
    conv_lhs => rw [← List.reverse_reverse (l.dropWhile isWs)]
    conv_lhs =>
      rw [← List.takeWhile_append_dropWhile (p := isWs)
        (l := (l.dropWhile isWs).reverse)]
    rw [List.reverse_append]
  conv_lhs => rw [← List.takeWhile_append_dropWhile (p := isWs) (l := l)]
  rw [List.append_assoc, ← hm]

theorem drop_dropWhile_slice (c : List Char) (n : Nat) :
    ∃ p q, c = p ++ (c.drop n).dropWhile isWs ++ q := by
  refine ⟨c.take n ++ (c.drop n).takeWhile isWs, [], ?_⟩
  rw [List.append_nil, List.append_assoc, List.takeWhile_append_dropWhile,
    List.take_append_drop]

theorem sanitizeChars_slice (l : List Char) :
    ∃ p q, stripFences l = p ++ sanitizeChars l ++ q := by
  unfold sanitizeChars
  split
  · exact slice_trans (jsTrim_slice (stripFences l))
      (drop_dropWhile_slice (jsTrim (stripFences l)) jsToken.length)
  · exact jsTrim_slice (stripFences l)

theorem sanitize_data (s : String) : (sanitize s).data = sanitizeChars s.data :=
  rfl

theorem sanitize_noFence (s : String) (a b : List Char) :
    (sanitize s).data ≠ a ++ backtick :: backtick :: backtick :: b := by
  intro h
  obtain ⟨p, q, hpq⟩ := sanitizeChars_slice s.data
  rw [sanitize_data] at h
  rw [h] at hpq
  refine stripFences_noFence s.data (p ++ a) (b ++ q) ?_
  rw [hpq]
  simp [List.append_assoc]

theorem beginsWith_append (p x : List Char) : beginsWith p (p ++ x) = true := by
  induction p with
  | nil => rfl
  | cons c cs ih => simp [beginsWith, ih]

theorem sanitizeChars_of_jsToken (l rest : List Char)
    (h : jsTrim (stripFences l) = jsToken ++ rest) :
    sanitizeChars l = rest.dropWhile isWs := by
  unfold sanitizeChars
  rw [h]
  have hmap : (jsToken ++ rest).map Char.toLower =
      jsToken ++ rest.map Char.toLower := by
    rw [List.map_append]
    congr 1
  rw [hmap, beginsWith_append, if_pos rfl, List.drop_left]

/-! ### Frontier and scheduler invariants -/

/-- The frontier invariant: the enqueue log has no duplicates, and every
logged URL is recorded in the visited set. -/
def FrontierInv (f : Frontier) : Prop :=
  f.log.Nodup ∧ ∀ u ∈ f.log, u ∈ f.visited

theorem enqueue_inv {f : Frontier} (h : FrontierInv f) (url : String) :
    FrontierInv (f.enqueue url) := by
  unfold Frontier.enqueue
  split
  · exact h
  · rename_i hn
    refine ⟨?_, ?_⟩
    · rw [List.nodup_append]
      refine ⟨h.1, List.nodup_singleton _, ?_⟩
      intro x hx hx2
      rw [List.mem_singleton] at hx2
      subst hx2
      exact hn (h.2 _ hx)
    · intro u hu
      rw [List.mem_append] at hu
      rcases hu with hu | hu
      · exact List.mem_cons_of_mem _ (h.2 u hu)
      · rw [List.mem_singleton] at hu
        subst hu
        exact List.mem_cons_self _ _

theorem enqueue_visited {f : Frontier} {url : String}
    (h : normalize url ∈ f.visited) : f.enqueue url = f := by
  unfold Frontier.enqueue
  rw [if_pos h]

theorem schedStep_inv {links : String → List String} {s s' : SchedState}
    (hstep : SchedStep links s s') (h : FrontierInv s.frontier) :
    FrontierInv s'.frontier := by
  cases hstep with
  | dispatch u rest hq hc => exact h
  | discover u l hu hl => exact enqueue_inv h l
  | finish u hu => exact h

theorem reaches_inv {links : String → List String} {seed : String}
    {s : SchedState} (h : Reaches links seed s) : FrontierInv s.frontier := by
  unfold Reaches at h
  induction h with
  | refl =>
    exact enqueue_inv ⟨List.nodup_nil, by simp⟩ seed
  | tail hab hbc ih => exact schedStep_inv hbc ih

theorem schedStep_concurrency {links : String → List String}
    {s s' : SchedState} (hstep : SchedStep links s s')
    (h : s.inFlight.length ≤ maxConcurrency) :
    s'.inFlight.length ≤ maxConcurrency := by
  cases hstep with
  | dispatch u rest hq hc =>
    simp only [List.length_cons]
    omega
  | discover u l hu hl => exact h
  | finish u hu =>
    exact le_trans (List.Sublist.length_le (List.erase_sublist _ _)) h

/-! ### Lemmas about the sequential run -/

theorem seqStep_core (links : String → List String)
    (wf wf' : String → Bool) (s s' : SeqState)
    (hf : s.frontier = s'.frontier) (hp : s.processed = s'.processed) :
    (seqStep links wf s).frontier = (seqStep links wf' s').frontier ∧
    (seqStep links wf s).processed = (seqStep links wf' s').processed := by
  rcases s with ⟨f, p, i, w⟩
  rcases s' with ⟨f2, p2, i2, w2⟩
  dsimp at hf hp
  subst hf
  subst hp
  unfold seqStep
  cases hq : f.queue with
  | nil => exact ⟨rfl, rfl⟩
  | cons u rest => exact ⟨rfl, rfl⟩

theorem seqRun_core (links : String → List String)
    (wf wf' : String → Bool) (n : Nat) :
    ∀ s s' : SeqState, s.frontier = s'.frontier → s.processed = s'.processed →
      (seqRun links wf n s).frontier = (seqRun links wf' n s').frontier ∧
      (seqRun links wf n s).processed = (seqRun links wf' n s').processed := by
  induction n with
  | zero => intro s s' hf hp; exact ⟨hf, hp⟩
  | succ n ih =>
    intro s s' hf hp
    obtain ⟨hf1, hp1⟩ := seqStep_core links wf wf' s s' hf hp
    exact ih _ _ hf1 hp1

theorem seqStep_indexed (links : String → List String) (wf : String → Bool)
    (s : SeqState)
    (h : s.indexed = s.processed.filter (fun u => ! wf u)) :
    (seqStep links wf s).indexed =
      (seqStep links wf s).processed.filter (fun u => ! wf u) := by
  unfold seqStep
  cases hq : s.frontier.queue with
  | nil => exact h
  | cons u rest =>
    dsimp
    by_cases hw : wf u
    · simp [hw, List.filter_append, h]
    · simp [hw, List.filter_append, h]

theorem seqRun_indexed (links : String → List String) (wf : String → Bool)
    (n : Nat) :
    ∀ s : SeqState, s.indexed = s.processed.filter (fun u => ! wf u) →
      (seqRun links wf n s).indexed =
        (seqRun links wf n s).processed.filter (fun u => ! wf u) := by
  induction n with
  | zero => intro s h; exact h
  | succ n ih => intro s h; exact ih _ (seqStep_indexed links wf s h)

end CrawlSpec

namespace CrawlClaims

open CrawlSpec

/-- C1 counterexample: at a concrete request whose getCleanText call
throws (src line 96 has no try/catch around it), the request handler
returns that error — the unit of work aborts — and the trace contains no
indexWrite event at all, so no Document with empty-string content is
produced, contrary to the claim that extraction failure degrades to an
empty-text document. -/
theorem claim_C1_counterexample :
    requestHandler
      { extractResult := Except.error "boom", titleResult := "T",
        indexResult := Except.ok (), now := "2024-01-01T00:00:00.000Z" }
      { url := "https://example.org/a",
        loadedUrl := "https://example.org/a" } =
    (Except.error "boom", [Event.extract]) ∧
    (requestHandler
      { extractResult := Except.error "boom", titleResult := "T",
        indexResult := Except.ok (), now := "2024-01-01T00:00:00.000Z" }
      { url := "https://example.org/a",
        loadedUrl := "https://example.org/a" }).2.countP
      (fun e => match e with | Event.indexWrite _ => true | _ => false)
      = 0 := ⟨rfl, rfl⟩

/-- C1 amended: an internal extraction failure propagates out of the
request handler — the unit of work fails with the extraction error, and no
document (empty or otherwise) is built or written for that request, and no
links are enqueued from it. -/
theorem claim_C1_extraction_throws (env : HandlerEnv) (req : CrawlRequest)
    (e : String) (hx : env.extractResult = Except.error e) :
    (requestHandler env req).1 = Except.error e ∧
    (requestHandler env req).2 = [Event.extract] := by
  unfold requestHandler
  rw [hx]
  exact ⟨rfl, rfl⟩

/-- C1 witness: the amended theorem applied at a concrete failing
extraction. -/
theorem claim_C1_witness :
    (requestHandler
      { extractResult := Except.error "timeout", titleResult := "",
        indexResult := Except.ok (), now := "t" }
      { url := "u", loadedUrl := "u" }).1 = Except.error "timeout" :=
  (claim_C1_extraction_throws
    { extractResult := Except.error "timeout", titleResult := "",
      indexResult := Except.ok (), now := "t" }
    { url := "u", loadedUrl := "u" } "timeout" rfl).1

/-- C2: when the index write fails, the error is logged with the URL, the
handler still completes successfully (so the framework neither aborts the
crawl nor retries the request) and still reaches the enqueueLinks call;
moreover, over a whole sequential run, which pages get processed is
independent of which index writes fail, and every processed page whose
write does not fail is indexed. -/
theorem claim_C2_write_failure_isolated (env : HandlerEnv)
    (req : CrawlRequest) (t e : String)
    (hx : env.extractResult = Except.ok t)
    (hw : env.indexResult = Except.error e)
    (links : String → List String) (wf wf2 : String → Bool)
    (fuel : Nat) (seed : String) :
    (requestHandler env req).1 = Except.ok () ∧
    Event.logIndexError req.url ∈ (requestHandler env req).2 ∧
    Event.enqueueLinksCall req.loadedUrl ∈ (requestHandler env req).2 ∧
    (seqRun links wf fuel (initSeq seed)).processed =
      (seqRun links wf2 fuel (initSeq seed)).processed ∧
    (seqRun links wf fuel (initSeq seed)).indexed =
      (seqRun links wf fuel (initSeq seed)).processed.filter
        (fun u => ! wf u) := by
  refine ⟨?_, ?_, ?_, ?_, ?_⟩
  · unfold requestHandler
    rw [hx]
  · unfold requestHandler
    rw [hx, hw]
    simp
  · unfold requestHandler
    rw [hx, hw]
    simp
  · exact (seqRun_core links wf wf2 fuel (initSeq seed) (initSeq seed)
      rfl rfl).2
  · exact seqRun_indexed links wf fuel (initSeq seed) rfl

/-- C2 witness: the theorem applied at a concrete failing write with two
different failure patterns and a two-page site. -/
theorem claim_C2_witness :
    (requestHandler
      { extractResult := Except.ok "text", titleResult := "T",
        indexResult := Except.error "rejected", now := "t" }
      { url := "https://a/", loadedUrl := "https://a/" }).1 =
      Except.ok () :=
  (claim_C2_write_failure_isolated
    { extractResult := Except.ok "text", titleResult := "T",
      indexResult := Except.error "rejected", now := "t" }
    { url := "https://a/", loadedUrl := "https://a/" } "text" "rejected"
    rfl rfl (fun _ => ["https://a/b"]) (fun _ => true) (fun _ => false)
    3 "https://a/").1

/-- C4 counterexample: at a concrete successfully processed request, the
handler trace is extract, readTitle, indexWrite, enqueueLinksCall — the
document is built and handed to the index BEFORE link discovery runs,
contradicting the claimed order (discovery at step d before the write at
step e). -/
theorem claim_C4_counterexample :
    (requestHandler
      { extractResult := Except.ok "body text", titleResult := "Title",
        indexResult := Except.ok (), now := "2024-01-01T00:00:00.000Z" }
      { url := "https://example.org/",
        loadedUrl := "https://example.org/" }).2 =
    [Event.extract, Event.readTitle,
      Event.indexWrite
        { title := "Title", content := "body text",
          url := "https://example.org/",
          crawledAt := "2024-01-01T00:00:00.000Z" },
      Event.enqueueLinksCall "https://example.org/"] ∧
    (requestHandler
      { extractResult := Except.ok "body text", titleResult := "Title",
        indexResult := Except.ok (), now := "2024-01-01T00:00:00.000Z" }
      { url := "https://example.org/",
        loadedUrl := "https://example.org/" }).2.findIdx
      (fun e => match e with | Event.indexWrite _ => true | _ => false) <
    (requestHandler
      { extractResult := Except.ok "body text", titleResult := "Title",
        indexResult := Except.ok (), now := "2024-01-01T00:00:00.000Z" }
      { url := "https://example.org/",
        loadedUrl := "https://example.org/" }).2.findIdx
      (fun e => match e with
        | Event.enqueueLinksCall _ => true | _ => false) :=
  ⟨rfl, by decide⟩

/-- C4 amended: within one unit of work the steps occur in the fixed
order render, extraction, title read, document build and index write,
link discovery, page release — i.e. link discovery happens AFTER the
document is built and handed to the index sink, not before. -/
theorem claim_C4_order (env : HandlerEnv) (req : CrawlRequest) (t : String)
    (hx : env.extractResult = Except.ok t) :
    (∀ u : Unit, env.indexResult = Except.ok u →
      unitOfWork env req =
        [Event.render req.url, Event.extract, Event.readTitle,
          Event.indexWrite
            { title := env.titleResult, content := t, url := req.url,
              crawledAt := env.now },
          Event.enqueueLinksCall req.loadedUrl, Event.releasePage]) ∧
    (∀ e : String, env.indexResult = Except.error e →
      unitOfWork env req =
        [Event.render req.url, Event.extract, Event.readTitle,
          Event.indexWrite
            { title := env.titleResult, content := t, url := req.url,
              crawledAt := env.now },
          Event.logIndexError req.url,
          Event.enqueueLinksCall req.loadedUrl, Event.releasePage]) := by
  constructor
  · intro u hw
    unfold unitOfWork requestHandler
    rw [hx, hw]
    rfl
  · intro e hw
    unfold unitOfWork requestHandler
    rw [hx, hw]
    rfl

/-- C4 witness: the amended order at a concrete request. -/
theorem claim_C4_witness :
    unitOfWork
      { extractResult := Except.ok "c", titleResult := "T",
        indexResult := Except.ok (), now := "t" }
      { url := "https://a/", loadedUrl := "https://a/b" } =
    [Event.render "https://a/", Event.extract, Event.readTitle,
      Event.indexWrite
        { title := "T", content := "c", url := "https://a/",
          crawledAt := "t" },
      Event.enqueueLinksCall "https://a/b", Event.releasePage] :=
  (claim_C4_order
    { extractResult := Except.ok "c", titleResult := "T",
      indexResult := Except.ok (), now := "t" }
    { url := "https://a/", loadedUrl := "https://a/b" } "c" rfl).1 () rfl

/-- C8 counterexample: at a concrete request that was redirected
(loadedUrl differs from the enqueued url), the document written carries
request.url (src line 98), not the URL as loaded after redirects — the
enqueueLinksCall event right next to it uses loadedUrl, showing the two
differ. -/
theorem claim_C8_counterexample :
    (requestHandler
      { extractResult := Except.ok "C", titleResult := "T",
        indexResult := Except.ok (), now := "2024-01-01T00:00:00.000Z" }
      { url := "https://example.org/start",
        loadedUrl := "https://example.org/final" }).2 =
    [Event.extract, Event.readTitle,
      Event.indexWrite
        { title := "T", content := "C", url := "https://example.org/start",
          crawledAt := "2024-01-01T00:00:00.000Z" },
      Event.enqueueLinksCall "https://example.org/final"] ∧
    "https://example.org/start" ≠ "https://example.org/final" :=
  ⟨rfl, by decide⟩

/-- C8 amended: every document handed to the index sink has exactly the
four fields title, content, url and crawledAt (the Document structure
mirrors the documentData object literal of src lines 100-105), where url
is the URL under which the request was enqueued (request.url), which under
a redirect can differ from the URL actually loaded. -/
theorem claim_C8_document_fields (env : HandlerEnv) (req : CrawlRequest)
    (t : String) (hx : env.extractResult = Except.ok t) :
    Event.indexWrite
      { title := env.titleResult, content := t, url := req.url,
        crawledAt := env.now } ∈ (requestHandler env req).2 := by
  unfold requestHandler
  rw [hx]
  cases hw : env.indexResult with
  | ok u => simp
  | error e => simp

/-- C8 witness: the amended theorem at a concrete request. -/
theorem claim_C8_witness :
    Event.indexWrite
      { title := "T", content := "c", url := "https://a/x",
        crawledAt := "t" } ∈
    (requestHandler
      { extractResult := Except.ok "c", titleResult := "T",
        indexResult := Except.ok (), now := "t" }
      { url := "https://a/x", loadedUrl := "https://a/y" }).2 :=
  claim_C8_document_fields
    { extractResult := Except.ok "c", titleResult := "T",
      indexResult := Except.ok (), now := "t" }
    { url := "https://a/x", loadedUrl := "https://a/y" } "c" rfl

/-- C3: if the generated source does not evaluate to a callable under the
name getCleanText (the evaluation throws or yields a non-function),
buildCrawler fails with the build error of src line 82, run() never starts
the crawler, and no render call ever occurs; there is no fallback — the
only outcome is the error. -/
theorem claim_C3_build_failure_aborts (env : BuildEnv) (resp : HttpResponse)
    (raw url : String) (links : String → List String) (wf : String → Bool)
    (fuel : Nat)
    (hf : env.fetchHomepage = Except.ok resp) (hok : resp.ok = true)
    (hl : env.llmResponse = Except.ok raw) (hne : raw ≠ "")
    (hj : env.jsEval (wrapCode (sanitize raw)) ≠ JSOutcome.function) :
    (∃ m, buildCrawlerModel env =
      Except.error ("Error building function from LLM code: " ++ m)) ∧
    RunEvent.crawlerRunStart ∉ (runModel env url links wf fuel).1 ∧
    ∀ u, RunEvent.renderCall u ∉ (runModel env url links wf fuel).1 := by
  have hb : ∃ m, buildCrawlerModel env =
      Except.error ("Error building function from LLM code: " ++ m) := by
    unfold buildCrawlerModel
    rw [hf]
    dsimp only
    rw [hok, if_neg (by simp), hl]
    dsimp only
    unfold generateCleaner
    rw [if_neg hne]
    dsimp only
    unfold buildGetCleanText
    cases hj2 : env.jsEval (wrapCode (sanitize raw)) with
    | function => exact absurd hj2 hj
    | notFunction =>
      exact ⟨"The code did not define a function named getCleanText.", rfl⟩
    | threw m => exact ⟨m, rfl⟩
  obtain ⟨m, hm⟩ := hb
  refine ⟨⟨m, hm⟩, ?_, ?_⟩
  · unfold runModel
    rw [hm]
    simp
  · intro u
    unfold runModel
    rw [hm]
    simp

/-- C3 witness: the theorem applied at a concrete environment whose
evaluation yields a non-function. -/
theorem claim_C3_witness :
    RunEvent.crawlerRunStart ∉
      (runModel
        { fetchHomepage := Except.ok { ok := true, status := 200, body := "<html></html>" },
          llmResponse := Except.ok "const x = 1",
          jsEval := fun _ => JSOutcome.notFunction }
        "https://a/" (fun _ => []) (fun _ => false) 3).1 :=
  (claim_C3_build_failure_aborts
    { fetchHomepage := Except.ok { ok := true, status := 200, body := "<html></html>" },
      llmResponse := Except.ok "const x = 1",
      jsEval := fun _ => JSOutcome.notFunction }
    { ok := true, status := 200, body := "<html></html>" }
    "const x = 1" "https://a/" (fun _ => []) (fun _ => false) 3
    rfl rfl rfl (by decide) (by decide)).2.1

/-- C5 counterexample: at a concrete environment whose homepage fetch
rejects, the run aborts before any crawling (the only event is the logged
error, there is no crawlerRunStart and no renderCall) but the exit code —
the second component of runModel, which run() always yields because the
error is caught at src lines 138-140 and never rethrown — is 0, not
non-zero as the claim requires. -/
theorem claim_C5_counterexample :
    runModel
      { fetchHomepage := Except.error "ECONNREFUSED",
        llmResponse := Except.ok "code",
        jsEval := fun _ => JSOutcome.function }
      "https://example.org/" (fun _ => []) (fun _ => false) 3 =
    ([RunEvent.logError "Error in run(): ECONNREFUSED"], 0) := rfl

/-- C5 amended: every startup-time failure (homepage fetch failure or
strategy-build failure, i.e. any buildCrawler error) aborts the run before
any crawling begins — the crawler is never started and no page is rendered
— and the error is logged, but it is caught inside run(), so the process
exit code is 0, not non-zero. -/
theorem claim_C5_startup_abort (env : BuildEnv) (e url : String)
    (links : String → List String) (wf : String → Bool) (fuel : Nat)
    (hb : buildCrawlerModel env = Except.error e) :
    (runModel env url links wf fuel).1 =
      [RunEvent.logError ("Error in run(): " ++ e)] ∧
    RunEvent.crawlerRunStart ∉ (runModel env url links wf fuel).1 ∧
    (∀ u, RunEvent.renderCall u ∉ (runModel env url links wf fuel).1) ∧
    (runModel env url links wf fuel).2 = 0 := by
  refine ⟨?_, ?_, ?_, ?_⟩
  · unfold runModel
    rw [hb]
  · unfold runModel
    rw [hb]
    simp
  · intro u
    unfold runModel
    rw [hb]
    simp
  · unfold runModel
    rw [hb]

/-- C5 witness: the amended theorem applied at a concrete fetch failure. -/
theorem claim_C5_witness :
    (runModel
      { fetchHomepage := Except.error "ECONNREFUSED",
        llmResponse := Except.ok "code",
        jsEval := fun _ => JSOutcome.function }
      "https://example.org/" (fun _ => []) (fun _ => false) 3).2 = 0 :=
  (claim_C5_startup_abort
    { fetchHomepage := Except.error "ECONNREFUSED",
      llmResponse := Except.ok "code",
      jsEval := fun _ => JSOutcome.function }
    "ECONNREFUSED" "https://example.org/" (fun _ => []) (fun _ => false) 3
    rfl).2.2.2

/-- C6: in every reachable scheduler state the enqueue log — the URLs ever
inserted into the frontier queue, across arbitrarily interleaved discovery
from concurrently in-flight pages — has no duplicates, and enqueueing a
URL whose normalized form is already in the visited set leaves the
frontier (in particular its log) unchanged. -/
theorem claim_C6_dedupe (links : String → List String) (seed : String)
    (s : SchedState) (h : Reaches links seed s) :
    s.frontier.log.Nodup ∧
    ∀ url, normalize url ∈ s.frontier.visited →
      s.frontier.enqueue url = s.frontier := by
  refine ⟨(reaches_inv h).1, fun url hv => enqueue_visited hv⟩

/-- C6 witness: the theorem applied at the initial reachable state of a
concrete run. -/
theorem claim_C6_witness :
    (initSched "https://example.org/a").frontier.log.Nodup :=
  (claim_C6_dedupe (fun _ => ["https://example.org/b"])
    "https://example.org/a" (initSched "https://example.org/a")
    Relation.ReflTransGen.refl).1

/-- C7: in every reachable scheduler state the number of in-flight
requests never exceeds the configured maximum concurrency, and that
maximum is 5 (src line 87). -/
theorem claim_C7_concurrency_bound (links : String → List String)
    (seed : String) (s : SchedState) (h : Reaches links seed s) :
    s.inFlight.length ≤ maxConcurrency ∧ maxConcurrency = 5 := by
  refine ⟨?_, rfl⟩
  unfold Reaches at h
  induction h with
  | refl => simp [initSched]
  | tail hab hbc ih => exact schedStep_concurrency hbc ih

/-- C7 witness: the theorem applied at the initial reachable state of a
concrete run. -/
theorem claim_C7_witness :
    (initSched "https://example.org/").inFlight.length ≤ maxConcurrency :=
  (claim_C7_concurrency_bound (fun _ => []) "https://example.org/"
    (initSched "https://example.org/") Relation.ReflTransGen.refl).1

/-- C9: for every raw string returned by the code-generation service, the
sanitized source contains no markdown code-fence delimiter (no three
consecutive backticks survive anywhere in it), and when the trimmed
fence-stripped source starts with the language-name token javascript, that
leading token and the whitespace after it are removed. -/
theorem claim_C9_sanitize (raw : String) :
    (∀ a b : List Char,
      (sanitize raw).data ≠ a ++ backtick :: backtick :: backtick :: b) ∧
    (∀ rest : List Char,
      jsTrim (stripFences raw.data) = jsToken ++ rest →
      (sanitize raw).data = rest.dropWhile isWs) := by
  refine ⟨sanitize_noFence raw, fun rest h => ?_⟩
  rw [sanitize_data]
  exact sanitizeChars_of_jsToken raw.data rest h

/-- C9 witness: a fenced response carrying the javascript language token
sanitizes to the bare source. -/
theorem claim_C9_witness :
    (sanitize "```javascript abc```").data = ['a', 'b', 'c'] := by
  have h := (claim_C9_sanitize "```javascript abc```").2
    [' ', 'a', 'b', 'c'] (by decide)
  rw [h]
  decide

/-- C10: a non-empty raw response consisting only of fence delimiters
passes the emptiness check of src line 33 (which runs on the RAW response,
before sanitization at src lines 38-44): generateCleaner succeeds with the
empty sanitized source, and the failure surfaces later as the
function-build error, not as the no-code error — still aborting before any
crawling begins. -/
theorem claim_C10_raw_emptiness_check (env : BuildEnv) (resp : HttpResponse)
    (url : String) (links : String → List String) (wf : String → Bool)
    (fuel : Nat)
    (hf : env.fetchHomepage = Except.ok resp) (hok : resp.ok = true)
    (hl : env.llmResponse = Except.ok "```")
    (hj : env.jsEval (wrapCode "") = JSOutcome.notFunction) :
    generateCleaner "```" = Except.ok "" ∧
    buildCrawlerModel env = Except.error
      ("Error building function from LLM code: " ++
        "The code did not define a function named getCleanText.") ∧
    buildCrawlerModel env ≠ Except.error "No code was returned by the LLM." ∧
    RunEvent.crawlerRunStart ∉ (runModel env url links wf fuel).1 := by
  have hgen : generateCleaner "```" = Except.ok "" := rfl
  have hb : buildCrawlerModel env = Except.error
      ("Error building function from LLM code: " ++
        "The code did not define a function named getCleanText.") := by
    unfold buildCrawlerModel
    rw [hf]
    dsimp only
    rw [hok, if_neg (by simp), hl]
    dsimp only
    rw [hgen]
    dsimp only
    unfold buildGetCleanText
    rw [hj]
  refine ⟨hgen, hb, ?_, ?_⟩
  · rw [hb]
    intro hcontra
    have := Except.error.inj hcontra
    revert this
    decide
  · unfold runModel
    rw [hb]
    simp

/-- C10 witness: the theorem applied at a concrete environment whose
code-generation service returns only a fence delimiter. -/
theorem claim_C10_witness :
    generateCleaner "```" = Except.ok "" :=
  (claim_C10_raw_emptiness_check
    { fetchHomepage := Except.ok { ok := true, status := 200, body := "<p>" },
      llmResponse := Except.ok "```",
      jsEval := fun _ => JSOutcome.notFunction }
    { ok := true, status := 200, body := "<p>" }
    "https://a/" (fun _ => []) (fun _ => false) 3 rfl rfl rfl rfl).1

end CrawlClaims
